import Mathlib

/-!
Shallow embedding of the crunner command-line tool (src/main.rs, src/types.rs,
src/util.rs): chain selection, parameter format classification, parameter
encoding, the EOA contract-code precheck, and the execution-mode dispatch of
`main`.  Regexes from util.rs are embedded semantically: each `Regex::is_match`
call is translated into a decidable predicate over the character list of the
(lowercased, where the source lowercases) input string.
-/

/-- Rust `str::to_lowercase` as applied by util.rs before every regex match,
modelled character-wise on the ASCII range (all character classes used by the
regexes are ASCII-only). -/
def toLowerData (s : String) : List Char :=
  s.data.map Char.toLower

/-- Character class `[0-9]`. -/
def isDigitChar (c : Char) : Bool := 48 ≤ c.toNat && c.toNat ≤ 57

/-- Character class `[1-9]`. -/
def isNonzeroDigit (c : Char) : Bool := 49 ≤ c.toNat && c.toNat ≤ 57

/-- Character class `[0-9a-f]`. -/
def isHexDigitLower (c : Char) : Bool :=
  (48 ≤ c.toNat && c.toNat ≤ 57) || (97 ≤ c.toNat && c.toNat ≤ 102)

/-- Core of the anchored address regex of util.rs `validate_address_format`
(an optional `0x` followed by exactly forty characters of `[0-9a-f]`, anchored
on both sides), applied to the already-lowercased character list. -/
def addr_core (l : List Char) : Bool :=
  (l.length == 40 && l.all isHexDigitLower) ||
  (match l with
   | a :: b :: rest => a == '0' && b == 'x' && (rest.length == 40 && rest.all isHexDigitLower)
   | _ => false)

/-- util.rs `validate_address_format`: lowercase the input, then match the
anchored regex `(0x)? [0-9a-f] x 40`. -/
def validate_address_format (address : String) : Bool :=
  addr_core (toLowerData address)

/-- Whether a match of the unanchored regex `0x[0-9a-fA-F]+` of util.rs
`validate_hexadecimal_format` starts at the head of the given (already
lowercased) character list. -/
def hexMatchAt : List Char → Bool
  | a :: b :: c :: _ => a == '0' && b == 'x' && isHexDigitLower c
  | _ => false

/-- `Regex::is_match` for an unanchored pattern: some suffix position starts a
match. -/
def existsMatchIn (p : List Char → Bool) : List Char → Bool
  | [] => p []
  | c :: cs => p (c :: cs) || existsMatchIn p cs

/-- util.rs `validate_hexadecimal_format`: lowercase the input, then test the
unanchored regex `0x[0-9a-fA-F]+` (on a lowercased string the class reduces to
`[0-9a-f]`). -/
def validate_hexadecimal_format (s : String) : Bool :=
  existsMatchIn hexMatchAt (toLowerData s)

/-- Whether a match of the unanchored regex `[-]?[1-9][0-9]*` of util.rs
`validate_decimal_format` starts at the head of the character list. -/
def decMatchAt : List Char → Bool
  | [] => false
  | [a] => isNonzeroDigit a
  | a :: b :: _ => isNonzeroDigit a || (a == '-' && isNonzeroDigit b)

/-- util.rs `validate_decimal_format`: lowercase the input, then test the
unanchored regex `[-]?[1-9][0-9]*`. -/
def validate_decimal_format (s : String) : Bool :=
  existsMatchIn decMatchAt (toLowerData s)

/-- types.rs `FnParamType`. -/
inductive FnParamType
  | Address
  | String
  | HU256
  | DU256
  deriving DecidableEq

/-- util.rs `parse_param_type`: priority-ordered classification of one raw
parameter string. -/
def parse_param_type (param_str : String) : FnParamType :=
  if validate_address_format param_str then FnParamType.Address
  else if validate_hexadecimal_format param_str then FnParamType.HU256
  else if validate_decimal_format param_str then FnParamType.DU256
  else FnParamType.String

/-- Strip one leading `0x` from a character list; used to phrase the
claim-side address pattern. -/
def strip0x : List Char → List Char
  | a :: b :: rest => if a == '0' && b == 'x' then rest else a :: b :: rest
  | l => l

/-- The address pattern as the claims state it: optionally `0x`-prefixed,
exactly forty hexadecimal characters, case-insensitive. -/
def matches_address_pattern (s : String) : Bool :=
  let core := strip0x (toLowerData s)
  core.length == 40 && core.all isHexDigitLower

/-- The anchored hexadecimal-integer pattern as the claims state it: the whole
string is `0x` followed by one or more hex digits, case-insensitive. -/
def matches_hex_pattern (s : String) : Bool :=
  match toLowerData s with
  | a :: b :: c :: rest => a == '0' && b == 'x' && (c :: rest).all isHexDigitLower
  | _ => false

/-- Tail of the decimal pattern: a nonzero digit then zero or more digits. -/
def dec_tail : List Char → Bool
  | c :: rest => isNonzeroDigit c && rest.all isDigitChar
  | [] => false

/-- The anchored decimal-integer pattern as the claims state it: an optional
minus sign, a nonzero digit, then zero or more digits. -/
def matches_decimal_pattern (s : String) : Bool :=
  match s.data with
  | c :: rest => if c == '-' then dec_tail rest else dec_tail (c :: rest)
  | [] => false

/-- Value of one hex digit, both cases accepted, as in the Rust `hex` crate's
per-character decoding. -/
def hexVal (c : Char) : Option Nat :=
  if 48 ≤ c.toNat && c.toNat ≤ 57 then some (c.toNat - 48)
  else if 97 ≤ c.toNat && c.toNat ≤ 102 then some (c.toNat - 87)
  else if 65 ≤ c.toNat && c.toNat ≤ 70 then some (c.toNat - 55)
  else none

/-- `hex::decode`: pairs of hex digits to bytes; `none` on an odd-length input
or an invalid character. -/
def hexDecodeList : List Char → Option (List Nat)
  | [] => some []
  | [_] => none
  | c1 :: c2 :: rest =>
    match hexVal c1, hexVal c2, hexDecodeList rest with
    | some h, some lo, some bs => some ((16 * h + lo) :: bs)
    | _, _, _ => none

/-- Lowercase hex digit for a value below sixteen, as in `hex::encode`. -/
def hexDigitChar (b : Nat) : Char :=
  if b < 10 then Char.ofNat (48 + b) else Char.ofNat (87 + b)

/-- `hex::encode`: two lowercase hex characters per byte. -/
def hexEncode : List Nat → List Char
  | [] => []
  | b :: rest => hexDigitChar (b / 16) :: hexDigitChar (b % 16) :: hexEncode rest

/-- types.rs `ChainType`. -/
inductive ChainType
  | BSC
  | Ethereum
  | Polygon
  deriving DecidableEq

/-- The static RPC endpoint chosen by util.rs `create_web3` for each chain. -/
def rpc_endpoint : ChainType → String
  | ChainType.BSC => "https://bsc-dataseed.binance.org/"
  | ChainType.Ethereum => "https://rpc.ankr.com/eth"
  | ChainType.Polygon => "https://polygon-rpc.com/"

/-- util.rs `unit_str`: display unit symbol for each chain. -/
def unit_str : ChainType → String
  | ChainType.BSC => "BNB"
  | ChainType.Ethereum => "ETH"
  | ChainType.Polygon => "MATIC"

/-- The chain-flag dispatch at the top of main.rs (lines 18 to 28): the
sequence of equality comparisons against the string literals exactly as they
appear in the source, yielding `none` when no comparison matched (in which
case main.rs line 31 calls `Option::unwrap` and panics).  Note the source
compares against the literal string "ehtereum". -/
def chainOf (chain_value : String) : Option ChainType :=
  if chain_value == "bsc" then some ChainType.BSC
  else if chain_value == "ehtereum" then some ChainType.Ethereum
  else if chain_value == "polygon" then some ChainType.Polygon
  else none

/-- The set of values the clap declaration in types.rs accepts for `--chain`:
`possible_values=["bsc", "ethereum", "polygon"]` with `ignore_case=true`. -/
def chainAccepted (s : String) : Bool :=
  toLowerData s == "bsc".data || toLowerData s == "ethereum".data ||
    toLowerData s == "polygon".data

/-- Network-visible calls made by one invocation, in order. -/
inductive NetCall
  | codeQuery
  | estimateGasCall
  | gasPriceCall
  | setCall
  | balanceCall
  | getCall
  deriving DecidableEq

/-- util.rs `perform_check_is_eoa`, with the one network interaction
(`web3.eth().code`) abstracted as the `codeResult` argument.  The first
component records the network calls actually issued; the second is `none`
when the Rust code panics (`Address::from_slice` asserts a twenty-byte slice),
otherwise the function's `Result<bool, String>`.  The source slices
`&address[2..]` unconditionally before hex-decoding. -/
def perform_check_is_eoa (address : String) (codeResult : Except String (List Nat)) :
    List NetCall × Option (Except String Bool) :=
  if validate_address_format address = false then
    ([], some (Except.error ("Error address is not in the correct format; addr=" ++ address)))
  else
    match hexDecodeList (address.data.drop 2) with
    | none => ([], some (Except.error ("Error hex decoding of address (" ++ address ++ ")")))
    | some bytes =>
      if bytes.length == 20 then
        match codeResult with
        | Except.error e =>
          ([NetCall.codeQuery],
           some (Except.error ("Error awaiting result for code from address (" ++ address ++ "); err=" ++ e)))
        | Except.ok code =>
          ([NetCall.codeQuery],
           some (Except.ok (if (hexEncode code).length > 0 then false else true)))
      else ([], none)

/-- util.rs `get_address_from_str`: validate, then `hex::decode(&address[2..])`
followed by `Address::from_slice`.  `none` models the panic: the `.unwrap()`
on the decode, or the slice-length assertion inside `Address::from_slice`
(which fires for a valid address given without its `0x` prefix, since the
first two hex digits were sliced off). -/
def get_address_from_str (address : String) : Option (Except String (List Nat)) :=
  if validate_address_format address = false then
    some (Except.error ("Error address is not in the correct format; addr=" ++ address))
  else
    match hexDecodeList (address.data.drop 2) with
    | none => none
    | some bytes => if bytes.length == 20 then some (Except.ok bytes) else none

/-- util.rs `create_contract`: validate the address, hex-decode
`&contract_address_str[2..]` (returning an error message on failure), build
the `Address` (`none` models the `from_slice` length assertion), then
`Contract::from_json` with the static ABI string of main.rs, which is a fixed
successful local parse. -/
def create_contract (contract_address_str : String) : Option (Except String Unit) :=
  if validate_address_format contract_address_str = false then
    some (Except.error ("Error address is in wrong format (" ++ contract_address_str ++ ")."))
  else
    match hexDecodeList (contract_address_str.data.drop 2) with
    | none => some (Except.error "Error converting from literal string of contract address into hex bytes")
    | some bytes => if bytes.length == 20 then some (Except.ok ()) else none

/-- ABI parameter token produced by util.rs `prepare_params` (the
`ethabi::token::Token` variants the tool actually builds). -/
inductive Token
  | address (bytes : List Nat)
  | uint (n : Nat)
  | str (s : String)
  deriving DecidableEq

/-- Rust `str::trim_start_matches("0x")`: repeatedly remove a leading `0x`. -/
def trimStart0x : List Char → List Char
  | '0' :: 'x' :: rest => trimStart0x rest
  | l => l

/-- `U256::from_str_radix(s, 16)` of the uint crate: every character must be a
hex digit and the value must fit in 256 bits. -/
def u256_from_hex_str (cs : List Char) : Except String Nat :=
  match cs.foldl (fun acc c =>
      match acc, hexVal c with
      | some a, some v => some (16 * a + v)
      | _, _ => none) (some 0) with
  | none => Except.error "InvalidCharacter"
  | some v => if v < 2 ^ 256 then Except.ok v else Except.error "IntegerOverflow"

/-- `U256::from_dec_str`: every character must be a decimal digit (a minus
sign is rejected) and the value must fit in 256 bits. -/
def u256_from_dec_str (cs : List Char) : Except String Nat :=
  match cs.foldl (fun acc c =>
      match acc, (if isDigitChar c then some (c.toNat - 48) else none) with
      | some a, some v => some (10 * a + v)
      | _, _ => none) (some 0) with
  | none => Except.error "InvalidCharacter"
  | some v => if v < 2 ^ 256 then Except.ok v else Except.error "InvalidLength"

/-- One iteration of the loop in util.rs `prepare_params` (with the
`print_param_type` flag false, as at every call site in this program):
classify the parameter, then encode it.  `none` models a panic inside
`get_address_from_str`. -/
def encode_param (p : String) : Option (Except String Token) :=
  match parse_param_type p with
  | FnParamType.Address =>
    match get_address_from_str p with
    | none => none
    | some (Except.error e) =>
      some (Except.error ("Error parsing parameter '" ++ p ++ "' for Address type; err=" ++ e))
    | some (Except.ok bytes) => some (Except.ok (Token.address bytes))
  | FnParamType.HU256 =>
    match u256_from_hex_str (trimStart0x p.data) with
    | Except.error e => some (Except.error ("Error creating U256 from hexadecimal string; e=" ++ e))
    | Except.ok v => some (Except.ok (Token.uint v))
  | FnParamType.DU256 =>
    match u256_from_dec_str p.data with
    | Except.error e => some (Except.error ("Error creating U256 from decimal string; e=" ++ e))
    | Except.ok v => some (Except.ok (Token.uint v))
  | FnParamType.String => some (Except.ok (Token.str p))

/-- util.rs `prepare_params` over the whole parameter list; the first error
(or panic) wins, as in the sequential Rust loop. -/
def prepare_params : List String → Option (Except String (List Token))
  | [] => some (Except.ok [])
  | p :: rest =>
    match encode_param p with
    | none => none
    | some (Except.error e) => some (Except.error e)
    | some (Except.ok tok) =>
      match prepare_params rest with
      | none => none
      | some (Except.error e) => some (Except.error e)
      | some (Except.ok toks) => some (Except.ok (tok :: toks))

/-- Parsed command-line arguments (types.rs `CommandlineArgs`), after clap. -/
structure Args where
  contract_address : String
  chain : String
  fn_name : String
  rpc_eth : Bool
  fn_ret_type : Option String
  ensure_setter : Bool
  params : List String
  dry_run_estimate_gas : Bool
  estimate_gas_from_addr : Option String
  block_confirmations : Nat
  abi_filepath : Option String

/-- Results the external collaborators (JSON-RPC node, process environment)
would return, one field per interaction point of main.rs.  `secretKeyStatus`
models the CRUNNER_SETTER_SECRETKEY environment variable: `none` when unset
(the `.expect` panics), `some false` when set but not a valid secp256k1 key
(the `.unwrap` on `SecretKey::from_str` panics), `some true` when valid. -/
structure NetOracle where
  codeResult : Except String (List Nat)
  estimateGasResult : Except String Nat
  gasPriceResult : Except String Nat
  setResult : Except String Nat
  balanceResult : Except String Nat
  getStringResult : Except String String
  getU256Result : Except String Nat
  secretKeyStatus : Option Bool

/-- One line printed to standard output by main.rs, abstracted per `println!`
site (the floating-point renderings are not modelled textually). -/
inductive OutLine
  | gasEstimateLine (gasUsed : Nat)
  | notSupport
  | txHash
  | balanceLine (bal : Nat)
  | strResult (s : String)
  | u256Result (n : Nat)
  deriving DecidableEq

/-- How the process ends: `exited c` for `std::process::exit(c)` (and clap's
own exit), `panicked` for a Rust panic, `completed` for falling off the end of
`main` (process status zero). -/
inductive Outcome
  | exited (code : Nat)
  | panicked
  | completed
  deriving DecidableEq

/-- Observable result of one invocation: network calls in order, stdout lines
in order, and how the process ended. -/
structure RunResult where
  calls : List NetCall
  stdout : List OutLine
  outcome : Outcome
  deriving DecidableEq

/-- util.rs `web3_query_estimate_gas` with the network call abstracted:
prepare the parameters, build the from-address, then ask the node. -/
def web3_query_estimate_gas (params : List String) (from_addr : String)
    (net : NetOracle) : List NetCall × Option (Except String Nat) :=
  match prepare_params params with
  | none => ([], none)
  | some (Except.error e) => ([], some (Except.error e))
  | some (Except.ok _) =>
    match get_address_from_str from_addr with
    | none => ([], none)
    | some (Except.error e) => ([], some (Except.error e))
    | some (Except.ok _) =>
      ([NetCall.estimateGasCall],
       some (net.estimateGasResult.mapError
         (fun e => "Error calling setter method namely; err=" ++ e)))

/-- util.rs `web3_query_get` with the network call abstracted; `result` is
what `contract.query` would return. -/
def web3_query_get {α : Type} (params : List String) (result : Except String α) :
    List NetCall × Option (Except String α) :=
  match prepare_params params with
  | none => ([], none)
  | some (Except.error e) => ([], some (Except.error e))
  | some (Except.ok _) =>
    ([NetCall.getCall],
     some (result.mapError (fun e => "Error querying via RPC; err=" ++ e)))

/-- util.rs `web3_query_set` with the signed call abstracted: prepare the
parameters, read and parse the secret key from the environment (panicking as
the source does when it is absent or invalid), then submit. -/
def web3_query_set (params : List String) (net : NetOracle) :
    List NetCall × Option (Except String Nat) :=
  match prepare_params params with
  | none => ([], none)
  | some (Except.error e) => ([], some (Except.error e))
  | some (Except.ok _) =>
    match net.secretKeyStatus with
    | none => ([], none)
    | some false => ([], none)
    | some true =>
      ([NetCall.setCall],
       some (net.setResult.mapError
         (fun e => "Error calling setter method namely; err=" ++ e)))

/-- The dry-run branch of main.rs (lines 59 to 119) after its two flag checks:
estimate gas, then query the gas price and print one result line.  The
`primitive_types::U256::from_dec_str` round-trips of the source always succeed
on the decimal rendering of a `U256` and are not modelled separately. -/
def dry_run_flow (a : Args) (net : NetOracle) (pre : List NetCall)
    (fromAddr : String) : RunResult :=
  match web3_query_estimate_gas a.params fromAddr net with
  | (calls, none) => RunResult.mk (pre ++ calls) [] Outcome.panicked
  | (calls, some (Except.error _)) => RunResult.mk (pre ++ calls) [] (Outcome.exited 1)
  | (calls, some (Except.ok est)) =>
    match net.gasPriceResult with
    | Except.error _ =>
      RunResult.mk (pre ++ calls ++ [NetCall.gasPriceCall]) [] (Outcome.exited 1)
    | Except.ok _ =>
      RunResult.mk (pre ++ calls ++ [NetCall.gasPriceCall])
        [OutLine.gasEstimateLine est] Outcome.completed

/-- The setter branch of main.rs (lines 126 to 137). -/
def setter_flow (a : Args) (net : NetOracle) (pre : List NetCall) : RunResult :=
  match web3_query_set a.params net with
  | (calls, none) => RunResult.mk (pre ++ calls) [] Outcome.panicked
  | (calls, some (Except.error _)) => RunResult.mk (pre ++ calls) [] (Outcome.exited 1)
  | (calls, some (Except.ok _)) =>
    RunResult.mk (pre ++ calls) [OutLine.txHash] Outcome.completed

/-- The rpc-eth getter branch of main.rs for the function name "balance"
(lines 141 to 168): rebuild the contract address, then query the balance. -/
def balance_flow (a : Args) (net : NetOracle) (pre : List NetCall) : RunResult :=
  match get_address_from_str a.contract_address with
  | none => RunResult.mk pre [] Outcome.panicked
  | some (Except.error _) => RunResult.mk pre [] (Outcome.exited 1)
  | some (Except.ok _) =>
    match net.balanceResult with
    | Except.error _ => RunResult.mk (pre ++ [NetCall.balanceCall]) [] (Outcome.exited 1)
    | Except.ok bal =>
      RunResult.mk (pre ++ [NetCall.balanceCall]) [OutLine.balanceLine bal] Outcome.completed

/-- The typed getter branch of main.rs (lines 180 to 201) once a return type
string is present: dispatch on "String" or "U256"; any other value falls
through both conditionals and main ends normally. -/
def getter_flow (a : Args) (net : NetOracle) (pre : List NetCall) (t : String) : RunResult :=
  if t == "String" then
    match web3_query_get a.params net.getStringResult with
    | (calls, none) => RunResult.mk (pre ++ calls) [] Outcome.panicked
    | (calls, some (Except.error _)) => RunResult.mk (pre ++ calls) [] (Outcome.exited 1)
    | (calls, some (Except.ok s)) =>
      RunResult.mk (pre ++ calls) [OutLine.strResult s] Outcome.completed
  else if t == "U256" then
    match web3_query_get a.params net.getU256Result with
    | (calls, none) => RunResult.mk (pre ++ calls) [] Outcome.panicked
    | (calls, some (Except.error _)) => RunResult.mk (pre ++ calls) [] (Outcome.exited 1)
    | (calls, some (Except.ok n)) =>
      RunResult.mk (pre ++ calls) [OutLine.u256Result n] Outcome.completed
  else RunResult.mk pre [] Outcome.completed

/-- The if/else-if chain of main.rs (lines 59 to 202) that selects the
execution mode, entered after the EOA precheck and contract creation;
`pre` carries the network calls already made. -/
def run_dispatch (a : Args) (net : NetOracle) (pre : List NetCall) : RunResult :=
  if a.dry_run_estimate_gas then
    if !a.ensure_setter then RunResult.mk pre [] (Outcome.exited 1)
    else
      match a.estimate_gas_from_addr with
      | none => RunResult.mk pre [] (Outcome.exited 1)
      | some fromAddr => dry_run_flow a net pre fromAddr
  else if a.ensure_setter && a.rpc_eth then
    RunResult.mk pre [OutLine.notSupport] Outcome.completed
  else if a.ensure_setter then setter_flow a net pre
  else if a.rpc_eth then
    if a.fn_name == "balance" then balance_flow a net pre
    else RunResult.mk pre [] Outcome.completed
  else
    match a.fn_ret_type with
    | none => RunResult.mk pre [] (Outcome.exited 1)
    | some t => getter_flow a net pre t

/-- main.rs after contract creation. -/
def main_after_contract : Option (Except String Unit) → List NetCall → Args → NetOracle → RunResult
  | none, calls, _, _ => RunResult.mk calls [] Outcome.panicked
  | some (Except.error _), calls, _, _ => RunResult.mk calls [] (Outcome.exited 1)
  | some (Except.ok _), calls, a, net => run_dispatch a net calls

/-- main.rs after the EOA precheck: exit non-zero on a check error or when the
target is an EOA, otherwise create the contract instance and dispatch. -/
def main_after_eoa : List NetCall × Option (Except String Bool) → Args → NetOracle → RunResult
  | (calls, none), _, _ => RunResult.mk calls [] Outcome.panicked
  | (calls, some (Except.error _)), _, _ => RunResult.mk calls [] (Outcome.exited 1)
  | (calls, some (Except.ok true)), _, _ => RunResult.mk calls [] (Outcome.exited 1)
  | (calls, some (Except.ok false)), a, net =>
    main_after_contract (create_contract a.contract_address) calls a net

/-- main.rs after the chain-flag dispatch: `none` panics at `chain.unwrap()`,
otherwise run the EOA precheck (`create_web3` itself makes no network call). -/
def main_after_chain : Option ChainType → Args → NetOracle → RunResult
  | none, _, _ => RunResult.mk [] [] Outcome.panicked
  | some _, a, net =>
    main_after_eoa (perform_check_is_eoa a.contract_address net.codeResult) a net

/-- The body of main.rs as one function from parsed arguments and collaborator
responses to the observable run result. -/
def run_main (a : Args) (net : NetOracle) : RunResult :=
  main_after_chain (chainOf a.chain) a net

/-- `--fn-ret-type` value check from types.rs:
`possible_values=["String", "U256"]`. -/
def retTypeOk : Option String → Bool
  | none => true
  | some t => t == "String" || t == "U256"

/-- The argument constraints declared on `CommandlineArgs` in types.rs that
relate the flags the claims are about: the `--chain` value set, the
`--rpc-eth` conflicts, `--fn-ret-type` required unless a setter or dry-run
flag is present, `--estimate-gas-from-addr` required with dry-run, and
`--abi-filepath` required unless `--rpc-eth`.  clap enforces these before the
body of `main` runs. -/
def clap_validate (a : Args) : Bool :=
  chainAccepted a.chain &&
  !(a.rpc_eth && (a.ensure_setter || a.dry_run_estimate_gas)) &&
  (a.fn_ret_type.isSome || a.ensure_setter || a.dry_run_estimate_gas) &&
  retTypeOk a.fn_ret_type &&
  (!a.dry_run_estimate_gas || a.estimate_gas_from_addr.isSome) &&
  (a.abi_filepath.isSome || a.rpc_eth)

/-- The whole process: clap parsing/validation (which exits with status two on
a constraint violation, before any network access), then the body of main. -/
def run_program (a : Args) (net : NetOracle) : RunResult :=
  if clap_validate a then run_main a net else RunResult.mk [] [] (Outcome.exited 2)

/-- A well-formed, 0x-prefixed contract address used as concrete input. -/
def addrA : String := "0xaaaaaaaaaaaaaaaaaaaaaaaaaaaaaaaaaaaaaaaa"

/-- The same forty hex characters without the 0x prefix. -/
def addrBare : String := "aaaaaaaaaaaaaaaaaaaaaaaaaaaaaaaaaaaaaaaa"

/-- A collaborator oracle where every interaction succeeds and the target
address holds non-empty contract code. -/
def netOk : NetOracle :=
  NetOracle.mk (Except.ok [96, 128]) (Except.ok 21000) (Except.ok 5000000000)
    (Except.ok 0) (Except.ok 42) (Except.ok "crunner") (Except.ok 7) (some true)

/-- A collaborator oracle whose code query reports empty code: the target is
an externally-owned account. -/
def netEoa : NetOracle :=
  NetOracle.mk (Except.ok []) (Except.ok 21000) (Except.ok 5000000000)
    (Except.ok 0) (Except.ok 42) (Except.ok "crunner") (Except.ok 7) (some true)

/-- Arguments for a dry-run invocation that omits `--ensure-setter`. -/
def argsDry : Args :=
  Args.mk addrA "bsc" "approve" false none false [] true (some addrA) 20 (some "abi.json")

/-- Arguments selecting `--chain ethereum` for a plain read query. -/
def argsEthereum : Args :=
  Args.mk addrA "ethereum" "name" false (some "String") false [] false none 20 (some "abi.json")

/-- Arguments for an rpc-eth raw query whose function name is not "balance". -/
def argsRpcName : Args :=
  Args.mk addrA "bsc" "name" true (some "String") false [] false none 20 none

/-- Arguments for a read query used against the EOA oracle. -/
def argsRead : Args :=
  Args.mk addrA "bsc" "name" false (some "String") false [] false none 20 (some "abi.json")

/-- Arguments for a read query with no `--fn-ret-type`. -/
def argsNoRet : Args :=
  Args.mk addrA "bsc" "name" false none false [] false none 20 (some "abi.json")


theorem hexDigitLower_x_false : isHexDigitLower 'x' = false := rfl

theorem addr_core_eq (l : List Char) :
    addr_core l = ((strip0x l).length == 40 && (strip0x l).all isHexDigitLower) := by
  match l with
  | [] => rfl
  | [a] => rfl
  | a :: b :: rest =>
    by_cases h : (a == '0' && b == 'x') = true
    · rw [Bool.and_eq_true] at h
      obtain ⟨ha, hb⟩ := h
      have ha' : a = '0' := beq_iff_eq.1 ha
      have hb' : b = 'x' := beq_iff_eq.1 hb
      subst ha'; subst hb'
      simp [addr_core, strip0x, hexDigitLower_x_false]
    · rw [Bool.not_eq_true] at h
      simp [addr_core, strip0x, h]

theorem validate_eq_matches (s : String) :
    validate_address_format s = matches_address_pattern s := by
  simp only [validate_address_format, matches_address_pattern]
  exact addr_core_eq (toLowerData s)

theorem toLower_fix_of_lt (c : Char) (h : c.toNat < 65) : Char.toLower c = c := by
  have hn : ¬(c.toNat ≥ 65 ∧ c.toNat ≤ 90) := by omega
  simp only [Char.toLower]
  rw [if_neg hn]

theorem map_toLower_id (l : List Char) (h : ∀ c ∈ l, c.toNat < 65) :
    l.map Char.toLower = l := by
  induction l with
  | nil => rfl
  | cons a t ih =>
    simp only [List.map_cons]
    rw [toLower_fix_of_lt a (h a (List.mem_cons_self a t)),
      ih (fun c hc => h c (List.mem_cons_of_mem a hc))]

theorem dec_tail_lt (l : List Char) (h : dec_tail l = true) : ∀ c ∈ l, c.toNat < 65 := by
  match l with
  | [] => simp [dec_tail] at h
  | c :: rest =>
    simp only [dec_tail, Bool.and_eq_true] at h
    obtain ⟨h1, h2⟩ := h
    intro d hd
    rcases List.mem_cons.1 hd with rfl | hd'
    · simp only [isNonzeroDigit, Bool.and_eq_true, decide_eq_true_eq] at h1
      omega
    · have hdig := List.all_eq_true.1 h2 d hd'
      simp only [isDigitChar, Bool.and_eq_true, decide_eq_true_eq] at hdig
      omega

theorem no_hex_match (l : List Char) (h : ∀ c ∈ l, c.toNat < 65) :
    existsMatchIn hexMatchAt l = false := by
  induction l with
  | nil => rfl
  | cons a t ih =>
    have ht : ∀ c ∈ t, c.toNat < 65 := fun c hc => h c (List.mem_cons_of_mem a hc)
    have hhead : hexMatchAt (a :: t) = false := by
      match t with
      | [] => rfl
      | [b] => rfl
      | b :: c :: r =>
        have hb : b.toNat < 65 := ht b (by simp)
        have hbx : (b == 'x') = false := by
          rw [beq_eq_false_iff_ne]
          intro e; subst e; exact absurd hb (by decide)
        simp [hexMatchAt, hbx]
    simp [existsMatchIn, hhead, ih ht]

theorem matches_decimal_pattern_cons (c : Char) (rest : List Char) (s : String)
    (hq : s.data = c :: rest) :
    matches_decimal_pattern s = (if c == '-' then dec_tail rest else dec_tail (c :: rest)) := by
  unfold matches_decimal_pattern
  rw [hq]

theorem dec_tail_cons (d : Char) (r : List Char) :
    dec_tail (d :: r) = (isNonzeroDigit d && r.all isDigitChar) := rfl

theorem nonzero_minus_false : isNonzeroDigit '-' = false := rfl

theorem hexEncode_length (l : List Nat) : (hexEncode l).length = 2 * l.length := by
  induction l with
  | nil => rfl
  | cons b t ih => simp [hexEncode, ih]; omega

/-- Claim C2: every string matching the optionally-0x-prefixed, forty
hex-character address pattern (case-insensitive) is classified Address by
`parse_param_type`; the address branch has priority over the hexadecimal and
decimal branches. -/
theorem address_pattern_classified_first (s : String)
    (h : matches_address_pattern s = true) :
    parse_param_type s = FnParamType.Address := by
  have hv : validate_address_format s = true := by
    rw [validate_eq_matches]; exact h
  simp [parse_param_type, hv]

/-- Witness for C2 at a concrete 0x-prefixed all-hex address (which also
matches the unanchored hexadecimal pattern, so priority matters). -/
theorem address_pattern_classified_first_witness :
    matches_address_pattern addrA = true ∧ parse_param_type addrA = FnParamType.Address :=
  ⟨rfl, address_pattern_classified_first addrA rfl⟩

/-- A string of forty decimal digits, used as concrete counterexample input. -/
def fortyOnes : String := "1111111111111111111111111111111111111111"

/-- Counterexample to C3 as stated: the forty-digit string of ones matches the
anchored decimal pattern, yet `parse_param_type` classifies it Address (the
address branch, forty hex characters without prefix, is checked first), not
DecimalInteger. -/
theorem decimal_pattern_forty_digits_is_address :
    matches_decimal_pattern fortyOnes = true ∧
    parse_param_type fortyOnes ≠ FnParamType.DU256 ∧
    parse_param_type fortyOnes = FnParamType.Address :=
  ⟨rfl, by decide, rfl⟩

/-- Amended C3: every string matching the anchored decimal pattern that does
not also match the address pattern is classified DecimalInteger, and the
literal string "0" is classified Text. -/
theorem decimal_pattern_classification_amended :
    (∀ s : String, matches_decimal_pattern s = true → matches_address_pattern s = false →
      parse_param_type s = FnParamType.DU256) ∧
    parse_param_type "0" = FnParamType.String := by
  refine ⟨?_, rfl⟩
  intro s hd ha
  have haddrf : validate_address_format s = false := by
    rw [validate_eq_matches]; exact ha
  rcases hq : s.data with _ | ⟨c, rest⟩
  · exfalso
    unfold matches_decimal_pattern at hd
    rw [hq] at hd
    simp at hd
  · have hd' : (if c == '-' then dec_tail rest else dec_tail (c :: rest)) = true := by
      rw [matches_decimal_pattern_cons c rest s hq] at hd
      exact hd
    by_cases hc : (c == '-') = true
    · have hc' : c = '-' := beq_iff_eq.1 hc
      subst hc'
      rw [if_pos hc] at hd'
      rcases hr : rest with _ | ⟨d, r⟩
      · rw [hr] at hd'
        exact absurd hd' (by simp [dec_tail])
      · rw [hr] at hd'
        have hd1 : isNonzeroDigit d = true := by
          have h2 := hd'
          simp only [dec_tail_cons, Bool.and_eq_true] at h2
          exact h2.1
        have hchars : ∀ e ∈ s.data, e.toNat < 65 := by
          rw [hq, hr]
          intro e he
          rcases List.mem_cons.1 he with rfl | he'
          · decide
          · exact dec_tail_lt (d :: r) hd' e he'
        have hlow : toLowerData s = s.data := map_toLower_id s.data hchars
        have hvh : validate_hexadecimal_format s = false := by
          unfold validate_hexadecimal_format
          rw [hlow]
          exact no_hex_match s.data hchars
        have hvd : validate_decimal_format s = true := by
          unfold validate_decimal_format
          rw [hlow, hq, hr]
          simp [existsMatchIn, decMatchAt, hd1, nonzero_minus_false]
        simp [parse_param_type, haddrf, hvh, hvd]
    · rw [if_neg hc] at hd'
      have hd1 : isNonzeroDigit c = true := by
        have h2 := hd'
        simp only [dec_tail_cons, Bool.and_eq_true] at h2
        exact h2.1
      have hchars : ∀ e ∈ s.data, e.toNat < 65 := by
        rw [hq]
        exact dec_tail_lt (c :: rest) hd'
      have hlow : toLowerData s = s.data := map_toLower_id s.data hchars
      have hvh : validate_hexadecimal_format s = false := by
        unfold validate_hexadecimal_format
        rw [hlow]
        exact no_hex_match s.data hchars
      have hvd : validate_decimal_format s = true := by
        unfold validate_decimal_format
        rw [hlow, hq]
        rcases rest with _ | ⟨d, r⟩
        · simp [existsMatchIn, decMatchAt, hd1]
        · simp [existsMatchIn, decMatchAt, hd1]
      simp [parse_param_type, haddrf, hvh, hvd]

/-- Witness for amended C3 on the negative decimal "-45" and on "0". -/
theorem decimal_pattern_classification_amended_witness :
    parse_param_type "-45" = FnParamType.DU256 ∧ parse_param_type "0" = FnParamType.String :=
  ⟨decimal_pattern_classification_amended.1 "-45" rfl rfl,
   decimal_pattern_classification_amended.2⟩

/-- C4 divergence, evaluated at the failing input "a1": it matches none of the
three anchored patterns of the claim, yet the classifier returns
DecimalInteger (the source's decimal regex is unanchored and finds the digit
substring "1"), and the subsequent decimal encoding of the parameter then
fails instead of passing the string through as Text. -/
theorem unanchored_classifier_text_fallback_violated :
    matches_address_pattern "a1" = false ∧ matches_hex_pattern "a1" = false ∧
    matches_decimal_pattern "a1" = false ∧
    parse_param_type "a1" = FnParamType.DU256 ∧
    encode_param "a1" = some (Except.error "Error creating U256 from decimal string; e=InvalidCharacter") :=
  ⟨rfl, rfl, rfl, rfl, rfl⟩

/-- C5 divergence, evaluated at the failing input: a valid unprefixed
forty-hex-character address parameter is classified Address, but
`get_address_from_str` slices off its first two characters unconditionally, so
the nineteen decoded bytes make `Address::from_slice` panic (modelled as
`none`) instead of yielding twenty bytes; the 0x-prefixed form of the same
address decodes to exactly twenty bytes. -/
theorem bare_address_encoding_panics :
    parse_param_type addrBare = FnParamType.Address ∧
    matches_address_pattern addrBare = true ∧
    get_address_from_str addrBare = none ∧
    encode_param addrBare = none ∧
    get_address_from_str addrA = some (Except.ok (List.replicate 20 170)) :=
  ⟨rfl, rfl, rfl, rfl, rfl⟩

/-- C1 divergence, evaluated at the failing input `--chain ethereum`: clap
accepts the value "ethereum" (types.rs declares it as a possible value), but
main.rs compares the chain string against the misspelled literal "ehtereum",
so the selection yields no chain and `chain.unwrap()` panics instead of
selecting the Ethereum endpoint. -/
theorem chain_ethereum_flag_panics :
    chainAccepted "ethereum" = true ∧ chainOf "ethereum" = none ∧
    chainOf "ehtereum" = some ChainType.Ethereum ∧
    rpc_endpoint ChainType.Ethereum = "https://rpc.ankr.com/eth" ∧
    run_main argsEthereum netOk = RunResult.mk [] [] Outcome.panicked :=
  ⟨rfl, rfl, rfl, rfl, rfl⟩

/-- Claim C6: with the dry-run flag set and the setter flag clear, main exits
with status one (a configuration error) after the contract-code precheck,
printing nothing and executing none of the four execution modes (no gas
estimate, write, balance, or read call is issued). -/
theorem dry_run_without_setter_config_error (a : Args) (net : NetOracle)
    (c : ChainType) (cs : List NetCall)
    (hc : chainOf a.chain = some c)
    (he : perform_check_is_eoa a.contract_address net.codeResult = (cs, some (Except.ok false)))
    (hcc : create_contract a.contract_address = some (Except.ok ()))
    (hd : a.dry_run_estimate_gas = true)
    (hs : a.ensure_setter = false) :
    run_main a net = RunResult.mk cs [] (Outcome.exited 1) := by
  simp only [run_main]
  rw [hc]
  simp only [main_after_chain]
  rw [he]
  simp only [main_after_eoa]
  rw [hcc]
  simp only [main_after_contract, run_dispatch]
  rw [hd, hs]
  simp

/-- Witness for C6: a concrete dry-run invocation without `--ensure-setter`
exits with status one, having made only the code-precheck network call. -/
theorem dry_run_without_setter_config_error_witness :
    argsDry.dry_run_estimate_gas = true ∧ argsDry.ensure_setter = false ∧
    run_main argsDry netOk = RunResult.mk [NetCall.codeQuery] [] (Outcome.exited 1) :=
  ⟨rfl, rfl,
   dry_run_without_setter_config_error argsDry netOk ChainType.BSC [NetCall.codeQuery]
     rfl rfl rfl rfl rfl⟩

/-- Counterexample to C7 as stated: this invocation has the setter flag clear,
the raw-RPC flag clear and no return-type flag, and it does end in a
configuration error (exit status one), but only after the contract-code
network call has already been made (because the dry-run flag is set, clap's
requiredness rule for the return type does not fire, and main checks the
dry-run/setter combination only after the EOA precheck). -/
theorem missing_ret_type_dry_run_after_network :
    argsDry.ensure_setter = false ∧ argsDry.rpc_eth = false ∧
    argsDry.fn_ret_type = none ∧ clap_validate argsDry = true ∧
    run_main argsDry netOk = RunResult.mk [NetCall.codeQuery] [] (Outcome.exited 1) :=
  ⟨rfl, rfl, rfl, rfl, rfl⟩

/-- Amended C7: with the setter flag clear, the raw-RPC flag clear, the
dry-run flag also clear and no return-type flag, the argument parser itself
rejects the invocation (the return type is required when neither setter nor
dry-run flag is present), so the process exits non-zero before any network
call; when the dry-run flag is set the configuration error comes only after
the contract-code network check. -/
theorem missing_ret_type_config_error_amended (a : Args) (net : NetOracle)
    (hset : a.ensure_setter = false) (_hrpc : a.rpc_eth = false)
    (hdry : a.dry_run_estimate_gas = false) (hret : a.fn_ret_type = none) :
    run_program a net = RunResult.mk [] [] (Outcome.exited 2) := by
  have hcl : clap_validate a = false := by
    simp [clap_validate, hset, hdry, hret]
  simp [run_program, hcl]

/-- Witness for amended C7 at a concrete read-style invocation missing its
return type: rejected at parsing, with no network calls and no output. -/
theorem missing_ret_type_config_error_amended_witness :
    argsNoRet.ensure_setter = false ∧ argsNoRet.rpc_eth = false ∧
    argsNoRet.dry_run_estimate_gas = false ∧ argsNoRet.fn_ret_type = none ∧
    run_program argsNoRet netOk = RunResult.mk [] [] (Outcome.exited 2) :=
  ⟨rfl, rfl, rfl, rfl,
   missing_ret_type_config_error_amended argsNoRet netOk rfl rfl rfl rfl⟩

/-- Claim C8: (first part) whenever the EOA precheck reports that the target
is an EOA, or the check itself returns an error, main exits with status one
having made no network calls beyond those of the check itself and printed
nothing — no execution path runs; (second part) for a well-formed address
whose decoded length is twenty bytes, `perform_check_is_eoa` returns `Ok` of
exactly the emptiness of the retrieved code. -/
theorem eoa_check_fail_fast_and_empty_code_equiv :
    (∀ (a : Args) (net : NetOracle) (c : ChainType) (cs : List NetCall)
        (r : Except String Bool),
      chainOf a.chain = some c →
      perform_check_is_eoa a.contract_address net.codeResult = (cs, some r) →
      (r = Except.ok true ∨ ∃ e, r = Except.error e) →
      run_main a net = RunResult.mk cs [] (Outcome.exited 1)) ∧
    (∀ (addr : String) (code bytes : List Nat),
      validate_address_format addr = true →
      hexDecodeList (addr.data.drop 2) = some bytes →
      bytes.length = 20 →
      (perform_check_is_eoa addr (Except.ok code)).2 = some (Except.ok code.isEmpty)) := by
  constructor
  · intro a net c cs r hc he hr
    simp only [run_main]
    rw [hc]
    simp only [main_after_chain]
    rw [he]
    rcases hr with rfl | ⟨e, rfl⟩
    · simp [main_after_eoa]
    · simp [main_after_eoa]
  · intro addr code bytes hv hb hl
    unfold perform_check_is_eoa
    rw [hv, hb]
    simp only [hl]
    rcases code with _ | ⟨x, xs⟩
    · simp [hexEncode]
    · simp [hexEncode_length]

/-- Witness for C8: against an oracle reporting empty code, a concrete read
invocation exits with status one right after the single code query; and the
check maps empty code to `Ok true`. -/
theorem eoa_check_fail_fast_and_empty_code_equiv_witness :
    run_main argsRead netEoa = RunResult.mk [NetCall.codeQuery] [] (Outcome.exited 1) ∧
    (perform_check_is_eoa addrA (Except.ok [])).2 = some (Except.ok true) :=
  ⟨eoa_check_fail_fast_and_empty_code_equiv.1 argsRead netEoa ChainType.BSC
     [NetCall.codeQuery] (Except.ok true) rfl rfl (Or.inl rfl),
   eoa_check_fail_fast_and_empty_code_equiv.2 addrA [] (List.replicate 20 170) rfl rfl rfl⟩

/-- Claim C10 (implicit): in raw-balance-query mode (raw-RPC set, setter and
dry-run clear), when the function name is not the string "balance", main
issues no further query after the precheck, prints nothing, and ends normally
with exit status zero. -/
theorem rpc_eth_non_balance_silent_success (a : Args) (net : NetOracle)
    (c : ChainType) (cs : List NetCall)
    (hc : chainOf a.chain = some c)
    (he : perform_check_is_eoa a.contract_address net.codeResult = (cs, some (Except.ok false)))
    (hcc : create_contract a.contract_address = some (Except.ok ()))
    (hrpc : a.rpc_eth = true)
    (hset : a.ensure_setter = false)
    (hdry : a.dry_run_estimate_gas = false)
    (hfn : (a.fn_name == "balance") = false) :
    run_main a net = RunResult.mk cs [] Outcome.completed := by
  simp only [run_main]
  rw [hc]
  simp only [main_after_chain]
  rw [he]
  simp only [main_after_eoa]
  rw [hcc]
  simp only [main_after_contract, run_dispatch]
  rw [hdry, hset, hrpc, hfn]
  simp

/-- Witness for C10: a concrete rpc-eth invocation with function name "name"
makes only the code-precheck call, prints nothing and completes with status
zero. -/
theorem rpc_eth_non_balance_silent_success_witness :
    argsRpcName.rpc_eth = true ∧ (argsRpcName.fn_name == "balance") = false ∧
    run_main argsRpcName netOk = RunResult.mk [NetCall.codeQuery] [] Outcome.completed :=
  ⟨rfl, rfl,
   rpc_eth_non_balance_silent_success argsRpcName netOk ChainType.BSC [NetCall.codeQuery]
     rfl rfl rfl rfl rfl rfl rfl⟩

